import Mathlib

/-!
Shallow embedding of `src/oscd-subscriber-lb-nr.ts` (the
`SubscriberLaterBindingNR` plugin) and proofs about its behaviour.

DOM elements are modelled by the projections the plugin reads: the tag
name, the attribute list (JS `getAttribute` returns the value or `null`,
modelled by `Option String`), and the collapsed projection
`closest('IED')?.getAttribute('manufacturer')` (an `Option String` that
is `some m` exactly when an IED ancestor exists and carries the
attribute).  The external read-only collaborators
(`isSubscribed`, `findFCDAs`, `findControlBlock`) and DOM sibling
navigation are oracles collected in a `Dom` record; `findFCDAs` takes an
`Option Elem` because the call site `findFCDAs(preEventExtRef!)` can
pass `null` through the non-null assertion.  `importNode(el, true)`
(a deep clone) is modelled by the immutable element value itself.
Dispatching an edit event is modelled by returning the request list in
dispatch order.
-/

namespace OscdSubscriberLbNr

/-- Model of a DOM element restricted to the projections the plugin reads. -/
structure Elem where
  tagName : String
  attrs : List (String × String)
  closestIEDManufacturer : Option String
deriving DecidableEq

/-- JS `el.getAttribute(name)`: the attribute value, or `null` if absent. -/
def Elem.getAttribute (e : Elem) (name : String) : Option String :=
  (e.attrs.find? (fun p => p.1 == name)).map (fun p => p.2)

/-- JS `el.hasAttribute(name)`. -/
def Elem.hasAttribute (e : Elem) (name : String) : Bool :=
  (e.attrs.find? (fun p => p.1 == name)).isSome

/-- JS `String.prototype.split` with a one-character separator, on the
character list: every occurrence splits, empty segments are kept, and the
result is always non-empty (`"".split('.') === [""]`). -/
def splitCharList (sep : Char) : List Char → List (List Char)
  | [] => [[]]
  | c :: cs =>
    let r := splitCharList sep cs
    if c == sep then [] :: r
    else
      match r with
      | seg :: rest => (c :: seg) :: rest
      | [] => [[c]]

/-- JS `s.split('.')`. -/
def jsSplitDot (s : String) : List String :=
  (splitCharList '.' s.toList).map (fun cs => String.mk cs)

/-- JS `s.slice(-1) === 'q'`: the last character of `s` is `'q'`
(`false` for the empty string). -/
def lastCharIsQ (s : String) : Bool :=
  match s.toList.getLast? with
  | some c => c == 'q'
  | none => false

/-- The attribute list compared by `isfcdaPairWithQuality`
(source line 31). -/
def fcdaAttrs : List String :=
  ["ldInst", "prefix", "lnClass", "lnInst", "doName", "daName"]

/-- Source lines 30-37: two FCDAs agree on every addressing attribute, or
the attribute is `daName` and `b`'s `daName`, split on `.`, has last
segment `q` (`b.getAttribute('daName')?.split('.').slice(-1)[0] === 'q'`;
an absent `daName` makes that comparison `false`). -/
def isfcdaPairWithQuality (a b : Elem) : Bool :=
  fcdaAttrs.all fun attr =>
    a.getAttribute attr == b.getAttribute attr ||
    (attr == "daName" &&
      (match b.getAttribute "daName" with
       | some s => (jsSplitDot s).getLastD "" == "q"
       | none => false))

/-- Source lines 51-63: both `intAddr` attributes must be present, the
`JSON.stringify` comparison of the two `slice(0, length - 1)` arrays is
list equality of the segments with the last one dropped, and the last
segment of `b` must end in the character `q`. -/
def extRefMatchNR (a b : Elem) : Bool :=
  match a.getAttribute "intAddr", b.getAttribute "intAddr" with
  | some aStr, some bStr =>
    let aParts := jsSplitDot aStr
    let bParts := jsSplitDot bStr
    aParts.dropLast == bParts.dropLast && lastCharIsQ (bParts.getLastD "")
  | _, _ => false

/-- A follow-up edit request published by the plugin: the payloads of the
`subscribe`/`unsubscribe` factory calls on source lines 171-179. -/
inductive EditRequest where
  | subscribe (sink : Elem) (fcda : Elem) (controlBlock : Elem)
  | unsubscribe (sink : Elem)
deriving DecidableEq

/-- One mutation record of an edit notification.  The plugin only
distinguishes `isUpdate` records (and reads their `element`); all other
kinds are collapsed into `other`. -/
inductive Edit where
  | update (element : Elem)
  | other
deriving DecidableEq

/-- The `event.detail` payload: one mutation record or an arbitrarily
nested ordered list of them. -/
inductive EditDetail where
  | one : Edit → EditDetail
  | many : List EditDetail → EditDetail

mutual

/-- JS `[event.detail].flat(Infinity)`: full flattening of the nested
mutation list into a linear ordered sequence. -/
def flattenDetail : EditDetail → List Edit
  | .one e => [e]
  | .many ds => flattenList ds

/-- Flattening of a list of nested mutation lists, in order. -/
def flattenList : List EditDetail → List Edit
  | [] => []
  | d :: ds => flattenDetail d ++ flattenList ds

end

/-- An `oscd-edit` notification: the initiating element
(`event.composedPath()[0]`) and the mutation payload. -/
structure EditEvent where
  initiatingTarget : Elem
  detail : EditDetail

/-- The component state the handlers read and write: the `enabled` flag,
the snapshot sequence `preEventExtRef`, and the `ignoreSupervision`
flag. -/
structure State where
  enabled : Bool
  preEventExtRef : List (Option Elem)
  ignoreSupervision : Bool
deriving DecidableEq

/-- The external read-only collaborators and DOM navigation, treated as
oracles.  `findFCDAs` takes an `Option Elem` because the source call
`findFCDAs(preEventExtRef!)` can pass `null` through the non-null
assertion; its result is `Option (List Elem)` because the source checks
the result for truthiness (`if (fcdas) ...`). -/
structure Dom where
  isSubscribed : Elem → Bool
  findFCDAs : Option Elem → Option (List Elem)
  findControlBlock : Elem → Option Elem
  nextElementSibling : Elem → Option Elem

/-- Source lines 65-73: the gate condition on the initiating element. -/
def shouldListen (event : EditEvent) : Bool :=
  event.initiatingTarget.getAttribute "identity" ==
      some "danyill.oscd-subscriber-later-binding" &&
    event.initiatingTarget.hasAttribute "allowexternalplugins"

/-- The mapping applied per flattened entry on source lines 130-134:
a deep clone (`importNode(·, true)`, modelled by the value itself) of the
updated element when the entry is an update of an `ExtRef` element,
`null` otherwise. -/
def snapshotOf : Edit → Option Elem
  | .update el => if el.tagName == "ExtRef" then some el else none
  | .other => none

/-- Source lines 119-136 (`captureMetadata`): when the gate passes,
record the `ignoresupervision` marker and the per-entry snapshot
sequence of the flattened mutation list; otherwise leave the state
unchanged. -/
def captureMetadata (st : State) (event : EditEvent) : State :=
  if shouldListen event then
    { st with
        ignoreSupervision :=
          event.initiatingTarget.hasAttribute "ignoresupervision",
        preEventExtRef := (flattenDetail event.detail).map snapshotOf }
  else st

/-- Source lines 148-181 (`modifyValueAndQualityPair`): resolve the
control block, require both next siblings, compute `wasSubscribed`
(`preEventExtRef && isSubscribed(preEventExtRef)`), and when the sibling
pair matches dispatch a subscribe (newly subscribed, control block
resolved) or an unsubscribe (newly unsubscribed, no control-block
condition), in source order. -/
def modifyValueAndQualityPair (dom : Dom) (firstExtRef : Elem)
    (preEventExtRef : Option Elem) (firstFcda : Elem) : List EditRequest :=
  match dom.nextElementSibling firstFcda, dom.nextElementSibling firstExtRef with
  | some nextFcda, some nextExtRef =>
    let wasSubscribed : Bool :=
      match preEventExtRef with
      | some pre => dom.isSubscribed pre
      | none => false
    if extRefMatchNR firstExtRef nextExtRef &&
        isfcdaPairWithQuality firstFcda nextFcda then
      (if !wasSubscribed && dom.isSubscribed firstExtRef then
        match dom.findControlBlock firstExtRef with
        | some cb => [EditRequest.subscribe nextExtRef nextFcda cb]
        | none => []
      else []) ++
      (if wasSubscribed && !dom.isSubscribed firstExtRef then
        [EditRequest.unsubscribe nextExtRef]
      else [])
    else []
  | _, _ => []

/-- Observable outcome of one `processNRExtRef` run: the arguments of
the `findFCDAs` calls it performed (in order, `none` standing for the
`null` passed through the `preEventExtRef!` assertion), and the edit
requests it dispatched. -/
structure NRResult where
  fcdaQueries : List (Option Elem)
  requests : List EditRequest
deriving DecidableEq

/-- Source lines 192-214 (`processNRExtRef`): return early when `extRef`
is unsubscribed, the snapshot is present, and the snapshot was also
unsubscribed; otherwise query `findFCDAs` on `extRef` (if subscribed) or
on the snapshot (possibly `null`, via `preEventExtRef!`), take the first
FCDA if any, and hand over to the pair propagation. -/
def processNRExtRef (dom : Dom) (extRef : Elem)
    (preEventExtRef : Option Elem) : NRResult :=
  if !dom.isSubscribed extRef &&
      (match preEventExtRef with
       | some pre => !dom.isSubscribed pre
       | none => false) then
    ⟨[], []⟩
  else
    let arg : Option Elem :=
      if dom.isSubscribed extRef then some extRef else preEventExtRef
    match dom.findFCDAs arg with
    | none => ⟨[arg], []⟩
    | some fcdas =>
      match fcdas.head? with
      | none => ⟨[arg], []⟩
      | some firstFcda =>
        ⟨[arg], modifyValueAndQualityPair dom extRef preEventExtRef firstFcda⟩

/-- The body of the `forEach` on source lines 236-244: for an update of
an `ExtRef` element whose ancestor IED has manufacturer `NRR`, run the
reconciliation with the snapshot at the same index (`some` result);
otherwise do nothing (`none`: no reconciliation call). -/
def reactEntry (dom : Dom) (snaps : List (Option Elem)) (i : Nat)
    (edit : Edit) : Option NRResult :=
  match edit with
  | .update el =>
    if el.tagName == "ExtRef" && el.closestIEDManufacturer == some "NRR" then
      some (processNRExtRef dom el (snaps.getD i none))
    else none
  | .other => none

/-- Source lines 229-249 (`modifyAdditionalExtRefs`): return unchanged
when disabled; otherwise process every flattened entry with its index,
collect the dispatched requests in order, then clear the snapshot
sequence and reset the supervision flag. -/
def modifyAdditionalExtRefs (dom : Dom) (st : State) (event : EditEvent) :
    State × List EditRequest :=
  if !st.enabled then (st, [])
  else
    let requests :=
      ((flattenDetail event.detail).enum).flatMap fun p =>
        match reactEntry dom st.preEventExtRef p.1 p.2 with
        | some r => r.requests
        | none => []
    ({ st with preEventExtRef := [], ignoreSupervision := false }, requests)

/-- One notification round-trip, source lines 98-106: the capture-phase
listener always runs `captureMetadata` (which gates internally), then
the bubble-phase listener runs `modifyAdditionalExtRefs` only when the
gate passes. -/
def handleEditEvent (dom : Dom) (st : State) (event : EditEvent) :
    State × List EditRequest :=
  let st1 := captureMetadata st event
  if shouldListen event then modifyAdditionalExtRefs dom st1 event
  else (st1, [])

/-- Spec predicate: the flattened entry is not an update of an element
whose ancestor IED has manufacturer `NRR`. -/
def nonNRREntry : Edit → Bool
  | .update el => !(el.closestIEDManufacturer == some "NRR")
  | .other => true

/-- An ExtRef whose internal address uses the documented NR format
(no `.` separators), bound to a value data attribute. -/
def extRefStVal : Elem :=
  ⟨"ExtRef", [("intAddr", "RxExtIn1;/Ind/stVal")], some "NRR"⟩

/-- An ExtRef with a different point name, quality data attribute. -/
def extRefQ2 : Elem :=
  ⟨"ExtRef", [("intAddr", "RxExtIn2;/Ind/q")], some "NRR"⟩

/-- A dot-separated value ExtRef used for end-to-end inputs. -/
def extRefA : Elem :=
  ⟨"ExtRef", [("intAddr", "RxExtIn1.stVal")], some "NRR"⟩

/-- The quality sibling of `extRefA`. -/
def extRefB : Elem :=
  ⟨"ExtRef", [("intAddr", "RxExtIn1.q")], some "NRR"⟩

/-- The pre-edit snapshot of `extRefA`, marked so the subscription
oracle can distinguish it. -/
def extRefPre : Elem :=
  ⟨"ExtRef", [("intAddr", "RxExtIn1.stVal"), ("wasBound", "yes")], some "NRR"⟩

/-- An ExtRef on a device of another manufacturer. -/
def extRefOther : Elem :=
  ⟨"ExtRef", [("intAddr", "RxExtIn1.stVal")], some "ABB"⟩

/-- A quality ExtRef identical in address to its pair partner. -/
def extRefQSame1 : Elem :=
  ⟨"ExtRef", [("intAddr", "RxExtIn1.q")], some "NRR"⟩

/-- A second element carrying the very same internal address. -/
def extRefQSame2 : Elem :=
  ⟨"ExtRef", [("desc", "two"), ("intAddr", "RxExtIn1.q")], some "NRR"⟩

/-- A value FCDA. -/
def fcdaA : Elem :=
  ⟨"FCDA", [("ldInst", "LD0"), ("prefix", ""), ("lnClass", "GGIO"),
    ("lnInst", "1"), ("doName", "Ind1"), ("daName", "stVal")], none⟩

/-- The quality sibling of `fcdaA`. -/
def fcdaB : Elem :=
  ⟨"FCDA", [("ldInst", "LD0"), ("prefix", ""), ("lnClass", "GGIO"),
    ("lnInst", "1"), ("doName", "Ind1"), ("daName", "q")], none⟩

/-- An FCDA carrying none of the six addressing attributes. -/
def fcdaEmptyA : Elem := ⟨"FCDA", [], none⟩

/-- Another FCDA with all six addressing attributes absent. -/
def fcdaEmptyB : Elem := ⟨"FCDA", [("other", "1")], none⟩

/-- The trivial oracle environment: nothing subscribed, no FCDAs, no
control blocks, no siblings. -/
def domNone : Dom :=
  ⟨fun _ => false, fun _ => none, fun _ => none, fun _ => none⟩

/-- Oracles for the unsubscribe scenario: only the pre-edit snapshot is
subscribed, the control block does not resolve, and the siblings are the
adjacent quality pair. -/
def domPair : Dom :=
  ⟨fun e => e == extRefPre,
   fun _ => none,
   fun _ => none,
   fun e =>
     if e == extRefA then some extRefB
     else if e == fcdaA then some fcdaB
     else none⟩

/-- An initiating element that passes the gate and allows supervision
changes to be bypassed. -/
def initiatingElem : Elem :=
  ⟨"DIV", [("identity", "danyill.oscd-subscriber-later-binding"),
    ("allowexternalplugins", ""), ("ignoresupervision", "")], none⟩

/-- A gate-passing notification updating one NRR ExtRef. -/
def evGate : EditEvent :=
  ⟨initiatingElem, EditDetail.one (Edit.update extRefA)⟩

/-- A gate-passing notification with a nested two-entry payload: an
ExtRef update and a non-update entry. -/
def evTwo : EditEvent :=
  ⟨initiatingElem,
   EditDetail.many [EditDetail.one (Edit.update extRefA),
     EditDetail.one Edit.other]⟩

/-- A gate-passing notification updating an ExtRef of another
manufacturer. -/
def evOther : EditEvent :=
  ⟨initiatingElem, EditDetail.one (Edit.update extRefOther)⟩

/-- Component state with the enabled flag unset. -/
def stDisabled : State := ⟨false, [], false⟩

/-- Component state with the enabled flag set. -/
def stEnabled : State := ⟨true, [], false⟩

theorem getD_map_snapshotOf (l : List Edit) (i : Nat) (hi : i < l.length) :
    (l.map snapshotOf).getD i none = snapshotOf (l.getD i Edit.other) := by
  induction l generalizing i with
  | nil => simp at hi
  | cons x xs ih =>
    cases i with
    | zero => simp
    | succ n =>
      simp only [List.map_cons, List.getD_cons_succ]
      exact ih n (by simpa using hi)

theorem mvqp_nil_of_unsubscribed_no_prior (dom : Dom) (a f : Elem)
    (h : dom.isSubscribed a = false) :
    modifyValueAndQualityPair dom a none f = [] := by
  cases hf : dom.nextElementSibling f with
  | none => simp [modifyValueAndQualityPair, hf]
  | some nf =>
    cases ha : dom.nextElementSibling a with
    | none => simp [modifyValueAndQualityPair, hf, ha]
    | some ne => simp [modifyValueAndQualityPair, hf, ha, h]

/-- C1 (counterexample): with `extRef` not subscribed and the pre-edit
snapshot absent, `processNRExtRef` does not stop: it performs a
`findFCDAs` query whose argument is the absent snapshot (`null` passed
through the `preEventExtRef!` assertion), contradicting the claim that
no `findFCDAs` call happens on the absent snapshot. -/
theorem claim1_counterexample :
    domNone.isSubscribed extRefStVal = false ∧
      Option.none ∈ (processNRExtRef domNone extRefStVal none).fcdaQueries := by
  decide

/-- C1 (amended): when `extRef` is not subscribed and the snapshot is
absent, the early-return guard does not fire (it requires the snapshot
to be present), so the procedure performs exactly one `findFCDAs` query,
with the absent snapshot as argument; it nevertheless dispatches no
follow-up edit, because `wasSubscribed` is false and `extRef` is
unsubscribed. -/
theorem claim1_amended (dom : Dom) (extRef : Elem)
    (h : dom.isSubscribed extRef = false) :
    (processNRExtRef dom extRef none).fcdaQueries = [none] ∧
      (processNRExtRef dom extRef none).requests = [] := by
  unfold processNRExtRef
  simp only [h, Bool.not_false, Bool.true_and, Bool.and_false, if_false,
    Bool.false_eq_true, if_neg, ite_false]
  cases hfc : dom.findFCDAs none with
  | none => simp [hfc]
  | some fcdas =>
    cases fcdas with
    | nil => simp [hfc]
    | cons f rest => simp [hfc, mvqp_nil_of_unsubscribed_no_prior dom extRef f h]

/-- C1 (witness): the amended statement evaluated in the trivial oracle
environment on a concrete unsubscribed ExtRef. -/
theorem claim1_witness :
    domNone.isSubscribed extRefStVal = false ∧
      ((processNRExtRef domNone extRefStVal none).fcdaQueries = [none] ∧
        (processNRExtRef domNone extRefStVal none).requests = []) :=
  ⟨by decide, claim1_amended domNone extRefStVal (by decide)⟩

/-- C2 (evaluation at the failing input): on the documented NR address
format, which contains no `.`, `split('.')` leaves each address as a
single segment, so the compared prefix arrays are both empty and equal
and any second address ending in `q` matches: the code returns `true`
for `RxExtIn1;/Ind/stVal` paired with `RxExtIn2;/Ind/q`, although the
point names differ and the claim (and the function's documented purpose)
requires `false`. -/
theorem claim2_eval : extRefMatchNR extRefStVal extRefQ2 = true := by decide

/-- C3 (counterexample): on two elements carrying none of the six
addressing attributes, every `getAttribute` comparison is
`null === null` and `isfcdaPairWithQuality` returns `true`, not `false`
as the claim states. -/
theorem claim3_counterexample :
    (∀ attr ∈ fcdaAttrs, fcdaEmptyA.getAttribute attr = none) ∧
      (∀ attr ∈ fcdaAttrs, fcdaEmptyB.getAttribute attr = none) ∧
      isfcdaPairWithQuality fcdaEmptyA fcdaEmptyB = true := by decide

/-- C3 (amended): `isfcdaPairWithQuality` is total (no error on absent
attributes), but whenever all six addressing attributes are absent on
both inputs it returns `true`: each comparison of two absent attribute
values succeeds. -/
theorem claim3_amended (a b : Elem)
    (ha : ∀ attr ∈ fcdaAttrs, a.getAttribute attr = none)
    (hb : ∀ attr ∈ fcdaAttrs, b.getAttribute attr = none) :
    isfcdaPairWithQuality a b = true := by
  have ha1 := ha "ldInst" (by simp [fcdaAttrs])
  have ha2 := ha "prefix" (by simp [fcdaAttrs])
  have ha3 := ha "lnClass" (by simp [fcdaAttrs])
  have ha4 := ha "lnInst" (by simp [fcdaAttrs])
  have ha5 := ha "doName" (by simp [fcdaAttrs])
  have ha6 := ha "daName" (by simp [fcdaAttrs])
  have hb1 := hb "ldInst" (by simp [fcdaAttrs])
  have hb2 := hb "prefix" (by simp [fcdaAttrs])
  have hb3 := hb "lnClass" (by simp [fcdaAttrs])
  have hb4 := hb "lnInst" (by simp [fcdaAttrs])
  have hb5 := hb "doName" (by simp [fcdaAttrs])
  have hb6 := hb "daName" (by simp [fcdaAttrs])
  simp [isfcdaPairWithQuality, fcdaAttrs, ha1, ha2, ha3, ha4, ha5, ha6,
    hb1, hb2, hb3, hb4, hb5, hb6]

/-- C3 (witness): the amended statement on two concrete elements with
all six addressing attributes absent. -/
theorem claim3_witness :
    (∀ attr ∈ fcdaAttrs, fcdaEmptyA.getAttribute attr = none) ∧
      (∀ attr ∈ fcdaAttrs, fcdaEmptyB.getAttribute attr = none) ∧
      isfcdaPairWithQuality fcdaEmptyA fcdaEmptyB = true :=
  ⟨by decide, by decide,
    claim3_amended fcdaEmptyA fcdaEmptyB (by decide) (by decide)⟩

/-- C5: a single run of the value/quality-pair propagation dispatches at
most one request: the subscribe guard (not previously subscribed, now
subscribed) and the unsubscribe guard (previously subscribed, now
unsubscribed) are mutually exclusive, so no run emits both. -/
theorem claim5_at_most_one (dom : Dom) (a : Elem) (p : Option Elem)
    (f : Elem) : (modifyValueAndQualityPair dom a p f).length ≤ 1 := by
  cases hf : dom.nextElementSibling f with
  | none => simp [modifyValueAndQualityPair, hf]
  | some nf =>
    cases ha : dom.nextElementSibling a with
    | none => simp [modifyValueAndQualityPair, hf, ha]
    | some ne =>
      cases hs : dom.isSubscribed a with
      | false =>
        cases p with
        | none => simp [modifyValueAndQualityPair, hf, ha, hs]
        | some pre =>
          cases hw : dom.isSubscribed pre with
          | false => simp [modifyValueAndQualityPair, hf, ha, hs, hw]
          | true =>
            simp only [modifyValueAndQualityPair, hf, ha, hs, hw]
            split <;> simp
      | true =>
        cases p with
        | none =>
          simp only [modifyValueAndQualityPair, hf, ha, hs]
          split <;> [skip; simp]
          cases hcb : dom.findControlBlock a <;> simp [hcb]
        | some pre =>
          cases hw : dom.isSubscribed pre with
          | false =>
            simp only [modifyValueAndQualityPair, hf, ha, hs, hw]
            split <;> [skip; simp]
            cases hcb : dom.findControlBlock a <;> simp [hcb]
          | true => simp [modifyValueAndQualityPair, hf, ha, hs, hw]

/-- C10: the internal-address heuristic never requires the two addresses
to differ: whenever both elements carry the same `intAddr` value and its
last dot-separated segment ends in the character `q`, the predicate
returns `true` — the first element's last segment is not required to be
a value tag. -/
theorem claim10_same_address (a b : Elem) (s : String)
    (ha : a.getAttribute "intAddr" = some s)
    (hb : b.getAttribute "intAddr" = some s)
    (hq : lastCharIsQ ((jsSplitDot s).getLastD "") = true) :
    extRefMatchNR a b = true := by
  simp only [extRefMatchNR, ha, hb]
  simp only [List.getLastD_eq_getLast?] at hq
  simp [hq]

/-- C10 (witness): two distinct sibling elements both carrying the very
same internal address `RxExtIn1.q` form a pair. -/
theorem claim10_witness :
    extRefQSame1.getAttribute "intAddr" = some "RxExtIn1.q" ∧
      extRefQSame2.getAttribute "intAddr" = some "RxExtIn1.q" ∧
      lastCharIsQ ((jsSplitDot "RxExtIn1.q").getLastD "") = true ∧
      extRefMatchNR extRefQSame1 extRefQSame2 = true :=
  ⟨by decide, by decide, by decide,
    claim10_same_address extRefQSame1 extRefQSame2 "RxExtIn1.q"
      (by decide) (by decide) (by decide)⟩

/-- C4 (counterexample): a gate-passing notification handled while the
component is disabled leaves the snapshot sequence uncleared and the
supervision-bypass flag set — the react handler returns before the
clearing step, so clearing does not happen regardless of the enabled
flag as the claim states. -/
theorem claim4_counterexample :
    stDisabled.enabled = false ∧ shouldListen evGate = true ∧
      ¬((handleEditEvent domNone stDisabled evGate).1.preEventExtRef = [] ∧
        (handleEditEvent domNone stDisabled evGate).1.ignoreSupervision = false) := by
  decide

/-- C4 (amended): when the enabled flag is set and the gate passes, the
round-trip ends with the snapshot sequence cleared and the
supervision-bypass flag false; and the requests a round-trip dispatches
never depend on snapshots left over from an earlier notification,
because the capture phase overwrites the sequence for the same
notification before the react phase reads it. -/
theorem claim4_amended (dom : Dom) (st : State) (ev : EditEvent)
    (he : st.enabled = true) (hg : shouldListen ev = true) :
    (handleEditEvent dom st ev).1.preEventExtRef = [] ∧
      (handleEditEvent dom st ev).1.ignoreSupervision = false ∧
      ∀ st2 : State, st2.enabled = true →
        (handleEditEvent dom st ev).2 = (handleEditEvent dom st2 ev).2 := by
  refine ⟨?_, ?_, ?_⟩
  · simp [handleEditEvent, captureMetadata, modifyAdditionalExtRefs, hg, he]
  · simp [handleEditEvent, captureMetadata, modifyAdditionalExtRefs, hg, he]
  · intro st2 h2
    simp [handleEditEvent, captureMetadata, modifyAdditionalExtRefs, hg, he, h2]

/-- C4 (witness): the amended statement on a concrete enabled state and
gate-passing notification. -/
theorem claim4_witness :
    stEnabled.enabled = true ∧ shouldListen evGate = true ∧
      ((handleEditEvent domNone stEnabled evGate).1.preEventExtRef = [] ∧
        (handleEditEvent domNone stEnabled evGate).1.ignoreSupervision = false ∧
        ∀ st2 : State, st2.enabled = true →
          (handleEditEvent domNone stEnabled evGate).2 =
            (handleEditEvent domNone st2 evGate).2) :=
  ⟨by decide, by decide,
    claim4_amended domNone stEnabled evGate (by decide) (by decide)⟩

/-- C6: for a gate-passing notification, Phase 1 produces a snapshot
sequence of the same length as the flattened mutation list, whose entry
at index `i` is the (deep-cloned) updated element when entry `i` updates
an `ExtRef` element, and `null` otherwise. -/
theorem claim6_capture (st : State) (ev : EditEvent)
    (h : shouldListen ev = true) :
    (captureMetadata st ev).preEventExtRef.length =
        (flattenDetail ev.detail).length ∧
      ∀ i : Nat, i < (flattenDetail ev.detail).length →
        (captureMetadata st ev).preEventExtRef.getD i none =
          (match (flattenDetail ev.detail).getD i Edit.other with
           | Edit.update el =>
              if el.tagName == "ExtRef" then some el else none
           | Edit.other => none) := by
  constructor
  · simp [captureMetadata, h]
  · intro i hi
    simp only [captureMetadata, h, ite_true]
    rw [getD_map_snapshotOf (flattenDetail ev.detail) i hi]
    cases hx : (flattenDetail ev.detail).getD i Edit.other <;> simp [snapshotOf]

/-- C6 (witness): the capture shape on a concrete nested two-entry
notification. -/
theorem claim6_witness :
    shouldListen evTwo = true ∧
      ((captureMetadata stDisabled evTwo).preEventExtRef.length =
          (flattenDetail evTwo.detail).length ∧
        ∀ i : Nat, i < (flattenDetail evTwo.detail).length →
          (captureMetadata stDisabled evTwo).preEventExtRef.getD i none =
            (match (flattenDetail evTwo.detail).getD i Edit.other with
             | Edit.update el =>
                if el.tagName == "ExtRef" then some el else none
             | Edit.other => none)) :=
  ⟨by decide, claim6_capture stDisabled evTwo (by decide)⟩

/-- C7: when the enabled flag is false no request is ever dispatched,
whatever the notification contains, while the capture phase still runs
and records the snapshot sequence whenever the gate passes. -/
theorem claim7_disabled_no_dispatch (dom : Dom) (st : State)
    (ev : EditEvent) (he : st.enabled = false) :
    (handleEditEvent dom st ev).2 = [] ∧
      (shouldListen ev = true →
        (handleEditEvent dom st ev).1.preEventExtRef =
          (flattenDetail ev.detail).map snapshotOf) := by
  cases hg : shouldListen ev with
  | false =>
    simp [handleEditEvent, captureMetadata, modifyAdditionalExtRefs, he, hg]
  | true =>
    simp [handleEditEvent, captureMetadata, modifyAdditionalExtRefs, he, hg]

/-- C7 (witness): the disabled component on a concrete gate-passing
notification dispatches nothing but captures the snapshot. -/
theorem claim7_witness :
    stDisabled.enabled = false ∧
      ((handleEditEvent domNone stDisabled evGate).2 = [] ∧
        (shouldListen evGate = true →
          (handleEditEvent domNone stDisabled evGate).1.preEventExtRef =
            (flattenDetail evGate.detail).map snapshotOf)) :=
  ⟨by decide, claim7_disabled_no_dispatch domNone stDisabled evGate (by decide)⟩

/-- C8: an update entry whose element's ancestor IED manufacturer is not
the literal `NRR` never reaches the reconciliation procedure, and a
notification all of whose flattened entries are non-NRR dispatches
nothing. -/
theorem claim8_non_nrr (dom : Dom) (st : State) (ev : EditEvent)
    (snaps : List (Option Elem)) (i : Nat) (el : Elem)
    (h1 : el.closestIEDManufacturer ≠ some "NRR")
    (h2 : (flattenDetail ev.detail).all nonNRREntry = true) :
    reactEntry dom snaps i (Edit.update el) = none ∧
      (handleEditEvent dom st ev).2 = [] := by
  have hval : (el.closestIEDManufacturer == some "NRR") = false := by
    simpa using h1
  constructor
  · simp [reactEntry, hval]
  · cases hg : shouldListen ev with
    | false => simp [handleEditEvent, hg]
    | true =>
      cases hen : st.enabled with
      | false =>
        simp [handleEditEvent, captureMetadata, modifyAdditionalExtRefs, hg, hen]
      | true =>
        have henc : (captureMetadata st ev).enabled = true := by
          simp [captureMetadata, hg, hen]
        simp only [handleEditEvent, hg, ite_true, modifyAdditionalExtRefs,
          henc, Bool.not_true, Bool.false_eq_true, ite_false]
        refine List.flatMap_eq_nil_iff.mpr ?_
        intro p hp
        have hmem : p.2 ∈ flattenDetail ev.detail :=
          List.snd_mem_of_mem_enum hp
        have hall := List.all_eq_true.mp h2 p.2 hmem
        cases hpe : p.2 with
        | other => simp [reactEntry]
        | update el2 =>
          rw [hpe] at hall
          have hv2 : (el2.closestIEDManufacturer == some "NRR") = false := by
            simpa [nonNRREntry] using hall
          simp [reactEntry, hv2]

/-- C8 (witness): a concrete update of an ExtRef on a non-NRR device is
ignored and its notification dispatches nothing even when enabled. -/
theorem claim8_witness :
    extRefOther.closestIEDManufacturer ≠ some "NRR" ∧
      (flattenDetail evOther.detail).all nonNRREntry = true ∧
      (reactEntry domNone [] 0 (Edit.update extRefOther) = none ∧
        (handleEditEvent domNone stEnabled evOther).2 = []) :=
  ⟨by decide, by decide,
    claim8_non_nrr domNone stEnabled evOther [] 0 extRefOther
      (by decide) (by decide)⟩

/-- C9: when the element was subscribed before the edit, is no longer
subscribed, and the positional siblings satisfy both pairing predicates,
the propagation emits exactly the unsubscribe request for the next
ExtRef, with no condition on control-block resolution; by contrast a
subscribe request is never emitted when the control block does not
resolve. -/
theorem claim9_unsub_no_controlblock (dom : Dom) (a pre f nf ne : Elem)
    (hf : dom.nextElementSibling f = some nf)
    (ha : dom.nextElementSibling a = some ne)
    (hpre : dom.isSubscribed pre = true)
    (hnow : dom.isSubscribed a = false)
    (hm : extRefMatchNR a ne = true)
    (hq : isfcdaPairWithQuality f nf = true) :
    modifyValueAndQualityPair dom a (some pre) f =
        [EditRequest.unsubscribe ne] ∧
      ∀ (dom2 : Dom) (a2 : Elem) (p2 : Option Elem) (f2 s fc cb : Elem),
        dom2.findControlBlock a2 = none →
        EditRequest.subscribe s fc cb ∉ modifyValueAndQualityPair dom2 a2 p2 f2 := by
  constructor
  · simp [modifyValueAndQualityPair, hf, ha, hpre, hnow, hm, hq]
  · intro dom2 a2 p2 f2 s fc cb hcb
    cases hf2 : dom2.nextElementSibling f2 with
    | none => simp [modifyValueAndQualityPair, hf2]
    | some nf2 =>
      cases ha2 : dom2.nextElementSibling a2 with
      | none => simp [modifyValueAndQualityPair, hf2, ha2]
      | some ne2 =>
        simp only [modifyValueAndQualityPair, hf2, ha2, hcb]
        split
        · split <;> simp
        · simp

/-- C9 (witness): the concrete unsubscribe scenario with an unresolvable
control block still emits exactly one unsubscribe request. -/
theorem claim9_witness :
    domPair.nextElementSibling fcdaA = some fcdaB ∧
      domPair.nextElementSibling extRefA = some extRefB ∧
      domPair.isSubscribed extRefPre = true ∧
      domPair.isSubscribed extRefA = false ∧
      extRefMatchNR extRefA extRefB = true ∧
      isfcdaPairWithQuality fcdaA fcdaB = true ∧
      (modifyValueAndQualityPair domPair extRefA (some extRefPre) fcdaA =
          [EditRequest.unsubscribe extRefB] ∧
        ∀ (dom2 : Dom) (a2 : Elem) (p2 : Option Elem) (f2 s fc cb : Elem),
          dom2.findControlBlock a2 = none →
          EditRequest.subscribe s fc cb ∉
            modifyValueAndQualityPair dom2 a2 p2 f2) :=
  ⟨by decide, by decide, by decide, by decide, by decide, by decide,
    claim9_unsub_no_controlblock domPair extRefA extRefPre fcdaA fcdaB
      extRefB (by decide) (by decide) (by decide) (by decide) (by decide)
      (by decide)⟩

end OscdSubscriberLbNr
